import Mathlib

/-!
Verification development for the T2_Linux hardware watchdog and recovery
orchestrator (WiFi-Monitor).  The repository ships two revisions of the
monitor:

* the current revision at src/src/wifi/WiFi-Monitor.py together with its
  shared library src/src/t2.py (embedded below in namespace Mon and the
  top-level t2 functions), and
* a historical self-contained revision at src/wifi/WiFi-Monitor.py
  (embedded below in namespace V1).

Modelling conventions, shared by all definitions:

* External effects are mediated by a World oracle: the exit code of the
  k-th external command, the answer of the k-th /proc/modules query, the
  k-th sysfs presence probe for the wireless interface and for the
  bluetooth controller, and the k-th reading of the wall clock.  A state
  St carries the oracle cursor t and an event trace tr.  Every oracle
  consultation advances the cursor by one and (except for clock reads)
  appends an event; time.sleep appends an event without advancing the
  cursor.
* Wall-clock values (Python floats) are modelled as rationals; the claims
  only compare and subtract times, so no floating-point behaviour is load
  bearing.
* Logging (t2.log_event and the local _log helpers) writes to a logger or
  a file and never influences control flow; log calls are not modelled.
* Strings are the exact command strings assembled by the source, except
  that the single-quote characters inside the notify-send argument lists
  are elided from the notification command constants.
* In src/src/t2.py, execute_command is declared as
  execute_command(cmd, env=None).  WiFi-Monitor.py invokes it as
  t2.execute_command(cmd, as_user=True) at every notification site; that
  keyword is not accepted, so Python raises TypeError at the call before
  any command runs.  The definition notify_as_user models exactly this
  call site: it returns Except.error PyErr.typeError without consulting
  the command oracle.
* Python regular-expression search with re.IGNORECASE is modelled by
  searchP: the five hang signatures consist only of literal fragments
  separated by the wildcard .*, so searching them is equivalent (for
  single log lines, which contain no interior newline) to finding the
  literal fragments case-insensitively, in order and without overlap.
-/

namespace T2Linux

/-- Python exception values that the modelled code can raise. -/
inductive PyErr
  | typeError
  | permissionError
  deriving DecidableEq, Repr

/-- Observable events of a run: executed external commands with their exit
codes, attempted as_user notifications (which raise before executing),
/proc/modules queries, sysfs presence probes, sleeps, and log lines read by
the watcher. -/
inductive Ev
  | cmd (c : String) (code : Int)
  | notifyAttempt (c : String)
  | loadedQ (m : String) (r : Bool)
  | sysfs (which : String) (r : Bool)
  | sleep (q : Rat)
  | readLine (l : String)
  deriving DecidableEq, Repr

/-- The oracle for all interactions with the operating system. -/
structure World where
  exitCode : Nat → String → Int
  moduleLoaded : Nat → String → Bool
  wifiPresent : Nat → Bool
  btPresent : Nat → Bool
  clock : Nat → Rat

/-- Run state: oracle cursor and event trace. -/
structure St where
  t : Nat
  tr : List Ev
  deriving DecidableEq, Repr

def st0 : St := ⟨0, []⟩

def pushEv (e : Ev) (s : St) : St := ⟨s.t, s.tr ++ [e]⟩

/-- The external commands recorded in a trace, in order. -/
def cmdsE : List Ev → List String
  | [] => []
  | Ev.cmd c _ :: r => c :: cmdsE r
  | _ :: r => cmdsE r

/-- The log lines read by the watcher, in order. -/
def readsE : List Ev → List String
  | [] => []
  | Ev.readLine l :: r => l :: readsE r
  | _ :: r => readsE r

/-- t2.execute_command for an ordinary (no as_user keyword) invocation:
runs the shell command synchronously and yields its exit code.  stdout and
stderr are only logged by the callers modelled here and are not carried. -/
def execute_command (w : World) (s : St) (c : String) : Int × St :=
  (w.exitCode s.t c, ⟨s.t + 1, s.tr ++ [Ev.cmd c (w.exitCode s.t c)]⟩)

/-- The call t2.execute_command(cmd, as_user=True) as written in
src/src/wifi/WiFi-Monitor.py.  src/src/t2.py line 78 declares
execute_command(cmd, env=None); the as_user keyword is not accepted, so the
call raises TypeError before any command is executed. -/
def notify_as_user (s : St) (c : String) : Except PyErr Unit × St :=
  (Except.error PyErr.typeError, ⟨s.t, s.tr ++ [Ev.notifyAttempt c]⟩)

/-- time.sleep: records the pause, consults no oracle. -/
def sleepEv (q : Rat) (s : St) : St := ⟨s.t, s.tr ++ [Ev.sleep q]⟩

/-- time.time(): reads the wall clock. -/
def readClock (w : World) (s : St) : Rat × St :=
  (w.clock s.t, ⟨s.t + 1, s.tr⟩)

/-- t2.is_module_loaded: reads /proc/modules and reports whether the named
module is listed. -/
def is_module_loaded (w : World) (s : St) (m : String) : Bool × St :=
  (w.moduleLoaded s.t m, ⟨s.t + 1, s.tr ++ [Ev.loadedQ m (w.moduleLoaded s.t m)]⟩)

/-- The retry loop of t2.load_module (for attempt in range(1, 4)): issue
modprobe, succeed on exit code zero with the per-module settle delay,
otherwise back off one second and retry; exhausting the fuel reports
failure. -/
def load_attempts (w : World) (m : String) (delay : Rat) : Nat → St → Bool × St
  | 0, s => (false, s)
  | n + 1, s =>
    let (code, s1) := execute_command w s ("modprobe --verbose " ++ m)
    if code = 0 then (true, sleepEv delay s1)
    else load_attempts w m delay n (sleepEv 1 s1)

/-- t2.load_module: no-op if the module is already loaded, otherwise up to
three modprobe attempts. -/
def load_module (w : World) (s : St) (m : String) (delay : Rat) : Bool × St :=
  let (ld, s1) := is_module_loaded w s m
  if ld then (true, s1) else load_attempts w m delay 3 s1

/-- The retry loop of t2.unload_module: issue modprobe --remove, succeed
when the exit code is zero and (checked lazily, only then) the module is no
longer listed, otherwise back off one second and retry. -/
def unload_attempts (w : World) (m : String) (delay : Rat) : Nat → St → Bool × St
  | 0, s => (false, s)
  | n + 1, s =>
    let (code, s1) := execute_command w s ("modprobe --verbose --remove --remove-holders " ++ m)
    if code = 0 then
      let (ld, s2) := is_module_loaded w s1 m
      if ld then unload_attempts w m delay n (sleepEv 1 s2)
      else (true, sleepEv delay s2)
    else unload_attempts w m delay n (sleepEv 1 s1)

/-- t2.unload_module: no-op if the module is not loaded, otherwise up to
three attempts. -/
def unload_module (w : World) (s : St) (m : String) (delay : Rat) : Bool × St :=
  let (ld, s1) := is_module_loaded w s m
  if ld then unload_attempts w m delay 3 s1 else (true, s1)

/-- The retry loop of t2.start_service: issue the action command; in
blocking mode confirm with is-active and retry on failure, in non-blocking
mode return True immediately after the first issue. -/
def start_attempts (w : World) (actCmd checkCmd : String) (block : Bool) : Nat → St → Bool × St
  | 0, s => (false, s)
  | n + 1, s =>
    let (_, s1) := execute_command w s actCmd
    if block then
      let (code, s2) := execute_command w s1 checkCmd
      if code = 0 then (true, s2)
      else start_attempts w actCmd checkCmd block n (sleepEv 1 s2)
    else (true, s1)

/-- t2.start_service with as_user=False: query is-active once to choose
start versus restart, then run the attempt loop.  Non-blocking invocations
append --no-block to the action command. -/
def start_service (w : World) (s : St) (name : String) (block : Bool) : Bool × St :=
  let checkCmd := "systemctl is-active --quiet " ++ name
  let (code, s1) := execute_command w s checkCmd
  let action := if code = 0 then "restart" else "start"
  let actCmd :=
    if block then "systemctl " ++ action ++ " " ++ name
    else "systemctl " ++ action ++ " --no-block " ++ name
  start_attempts w actCmd checkCmd block 3 s1

/-- The retry loop of t2.stop_service: issue systemctl stop; in blocking
mode confirm the service went inactive and retry otherwise, in non-blocking
mode return True immediately. -/
def stop_attempts (w : World) (name : String) (block : Bool) : Nat → St → Bool × St
  | 0, s => (false, s)
  | n + 1, s =>
    let actCmd :=
      if block then "systemctl stop " ++ name
      else "systemctl stop --no-block " ++ name
    let (_, s1) := execute_command w s actCmd
    if block then
      let (code, s2) := execute_command w s1 ("systemctl is-active --quiet " ++ name)
      if code = 0 then stop_attempts w name block n (sleepEv 1 s2)
      else (true, s2)
    else (true, s1)

/-- t2.stop_service with as_user=False. -/
def stop_service (w : World) (s : St) (name : String) (block : Bool) : Bool × St :=
  stop_attempts w name block 3 s

/-- Case-insensitive character comparison (re.IGNORECASE). -/
def chEq (a b : Char) : Bool := a.toLower == b.toLower

/-- Does the pattern fragment match at the head of the text,
case-insensitively. -/
def headMatchCI : List Char → List Char → Bool
  | [], _ => true
  | _ :: _, [] => false
  | a :: as, b :: bs => chEq a b && headMatchCI as bs

/-- Find the first case-insensitive occurrence of a literal fragment and
return the remaining text after it. -/
def dropFindCI (pat : List Char) : List Char → Option (List Char)
  | [] => if pat.isEmpty then some [] else none
  | c :: cs =>
    if headMatchCI pat (c :: cs) then some (List.drop pat.length (c :: cs))
    else dropFindCI pat cs

/-- Match a sequence of literal fragments in order, case-insensitively and
without overlap: the semantics of re.search for a pattern of literals
separated by the wildcard .* on a single log line. -/
def searchLits : List (List Char) → List Char → Bool
  | [], _ => true
  | p :: ps, s =>
    match dropFindCI p s with
    | some rest => searchLits ps rest
    | none => false

/-- A compiled hang signature: its literal fragments in order. -/
def Pat := List String

/-- pattern.search(line) with re.IGNORECASE. -/
def searchP (p : Pat) (line : String) : Bool :=
  searchLits (p.map String.toList) line.toList

/-- The inner for-pattern loop of the watchers: the line triggers iff some
signature matches (the loop breaks at the first match). -/
def anyMatchL (pl : List Pat) (line : String) : Bool :=
  pl.any (fun p => searchP p line)

namespace Mon

/-- Cooldown window of the current monitor (cd_sec = 20 in
src/src/wifi/WiFi-Monitor.py). -/
def cd_sec : Rat := 20

/-- The five compiled hang signatures of src/src/wifi/WiFi-Monitor.py,
reduced to their literal fragments. -/
def p_list : List Pat :=
  [["CMD_TRIGGER_SCAN", "error", "(5)"],
   ["brcmf_msgbuf_query_dcmd"],
   ["set wpa_auth failed"],
   ["error (-12)"],
   ["failed with error -110"]]

def anyMatch (line : String) : Bool := anyMatchL p_list line

/-- Notification command constants (single quotes of the source elided). -/
def notifyHang : String :=
  "notify-send Wi-Fi Monitor Hardware hang detected --urgency=critical --icon=dialog-error"

def notifyReset : String :=
  "notify-send Wi-Fi Monitor Reset sequence started --urgency=normal --icon=view-refresh"

def notifyRestored : String :=
  "notify-send Wi-Fi Monitor Connectivity restored --urgency=low --icon=network-wireless"

def notifyFailedCmd : String :=
  "notify-send Wi-Fi Monitor Recovery failed after multiple attempts --urgency=critical --icon=dialog-error"

def notifyManual : String :=
  "notify-send Wi-Fi Monitor Manual reset triggered --urgency=normal --icon=view-refresh"

def _unload_wifi (w : World) (s : St) : Bool × St :=
  unload_module w s "brcmfmac_wcc" 3

def _load_wifi (w : World) (s : St) : Bool × St :=
  load_module w s "brcmfmac_wcc" 3

def _unload_bt (w : World) (s : St) : Bool × St :=
  unload_module w s "hci_bcm4377" 3

def _load_bt (w : World) (s : St) : Bool × St :=
  load_module w s "hci_bcm4377" 3

/-- STAGE 1 of the current monitor: unload drivers in reverse dependency
order (wifi then bluetooth).  The boolean results of the unload calls are
discarded by the source; the stage returns True unless an exception is
raised inside it, and no modelled step raises, so the except-branch
(return False) is unreachable. -/
def _unload_all (w : World) (s : St) : Bool × St :=
  (true, (_unload_bt w (_unload_wifi w s).2).2)

/-- STAGE 2 of the current monitor: load bluetooth then wifi.  Same
structure as _unload_all: step results discarded, True unless an exception
is raised, except-branch unreachable. -/
def _load_all (w : World) (s : St) : Bool × St :=
  (true, (_load_wifi w (_load_bt w s).2).2)

/-- sysfs probe for any wireless interface under /sys/class/net. -/
def sysfsWifi (w : World) (s : St) : Bool × St :=
  (w.wifiPresent s.t, ⟨s.t + 1, s.tr ++ [Ev.sysfs "wifi" (w.wifiPresent s.t)]⟩)

/-- sysfs probe for /sys/class/bluetooth/hci0. -/
def sysfsBt (w : World) (s : St) : Bool × St :=
  (w.btPresent s.t, ⟨s.t + 1, s.tr ++ [Ev.sysfs "bt" (w.btPresent s.t)]⟩)

/-- _verify_connectivity of src/src/wifi/WiFi-Monitor.py: probe sysfs for
wifi and bluetooth; if both are present, emit the success notification and
return True; if a pass fails and retries remain, reload only the missing
resources, wait two seconds and recurse; with retries exhausted, emit the
critical notification and return False.  Both notification sites call
t2.execute_command(..., as_user=True) and therefore raise TypeError. -/
def _verify_connectivity (w : World) : Nat → St → Except PyErr Bool × St
  | 0, s =>
    let (wok, s1) := sysfsWifi w s
    let (bok, s2) := sysfsBt w s1
    if wok && bok then
      match notify_as_user s2 notifyRestored with
      | (Except.error e, s3) => (Except.error e, s3)
      | (Except.ok _, s3) => (Except.ok true, s3)
    else
      match notify_as_user s2 notifyFailedCmd with
      | (Except.error e, s3) => (Except.error e, s3)
      | (Except.ok _, s3) => (Except.ok false, s3)
  | r + 1, s =>
    let (wok, s1) := sysfsWifi w s
    let (bok, s2) := sysfsBt w s1
    if wok && bok then
      match notify_as_user s2 notifyRestored with
      | (Except.error e, s3) => (Except.error e, s3)
      | (Except.ok _, s3) => (Except.ok true, s3)
    else
      let s3 := if wok then s2 else (_load_wifi w (_unload_wifi w s2).2).2
      let s4 := if bok then s3 else (_load_bt w (_unload_bt w s3).2).2
      _verify_connectivity w r (sleepEv 2 s4)

/-- _reset_sequence of src/src/wifi/WiFi-Monitor.py.  Reads the clock; if
now - lrt < cd_sec the cooldown gate refuses (returns False, no further
effect).  Otherwise it emits the start notification (which raises
TypeError, aborting the pipeline and leaving lrt unchanged); the remainder
of the body is embedded faithfully after the notification: unload stage,
five-second settle, load stage, five-second settle, verification, and the
update of lrt to the current time only when verification returns True. -/
def _reset_sequence (w : World) (s : St) (lrt : Rat) : Except PyErr Bool × Rat × St :=
  let (n, s1) := readClock w s
  if n - lrt < cd_sec then (Except.ok false, lrt, s1)
  else
    match notify_as_user s1 notifyReset with
    | (Except.error e, s2) => (Except.error e, lrt, s2)
    | (Except.ok _, s2) =>
      let p := _unload_all w s2
      if p.1 then
        let s4 := sleepEv 5 p.2
        let q := _load_all w s4
        if q.1 then
          let s6 := sleepEv 5 q.2
          match _verify_connectivity w 3 s6 with
          | (Except.ok true, s7) =>
            let (n2, s8) := readClock w s7
            (Except.ok true, n2, s8)
          | (Except.ok false, s7) => (Except.ok false, lrt, s7)
          | (Except.error e, s7) => (Except.error e, lrt, s7)
        else (Except.ok false, lrt, q.2)
      else (Except.ok false, lrt, p.2)

/-- One iteration of the for line in p.stdout loop of al_is_watching:
record the read, skip empty lines, test the signatures, and on a match emit
the hang notification (which raises TypeError) followed by _reset_sequence.
Errors propagate to the caller, which models the try/except around the
whole loop. -/
def watch_line (w : World) (s : St) (lrt : Rat) (line : String) :
    Except PyErr Unit × Rat × St :=
  let s1 := pushEv (Ev.readLine line) s
  if line = "" then (Except.ok (), lrt, s1)
  else if anyMatch line then
    match notify_as_user s1 notifyHang with
    | (Except.error e, s2) => (Except.error e, lrt, s2)
    | (Except.ok _, s2) =>
      match _reset_sequence w s2 lrt with
      | (Except.ok _, lrt2, s3) => (Except.ok (), lrt2, s3)
      | (Except.error e, _, s3) => (Except.error e, lrt, s3)
  else (Except.ok (), lrt, s1)

/-- The watch loop over the (finite prefix of the) journalctl stream: the
first error raised by a line aborts the loop and propagates. -/
def watchLines (w : World) : List String → St → Rat → Except PyErr Unit × Rat × St
  | [], s, lrt => (Except.ok (), lrt, s)
  | l :: ls, s, lrt =>
    match watch_line w s lrt l with
    | (Except.ok _, lrt2, s2) => watchLines w ls s2 lrt2
    | (Except.error e, lrt2, s2) => (Except.error e, lrt2, s2)

/-- al_is_watching of src/src/wifi/WiFi-Monitor.py: the try/except
enclosing the whole loop catches PermissionError and every other exception,
logs it, and returns — it does not re-enter the loop. -/
def al_is_watching (w : World) (lines : List String) (s : St) (lrt : Rat) : Rat × St :=
  match watchLines w lines s lrt with
  | (Except.ok _, lrt2, s2) => (lrt2, s2)
  | (Except.error _, lrt2, s2) => (lrt2, s2)

/-- The truncation of the stream that the current watcher actually reads:
everything up to and including the first signature-matching line (whose
pipeline raises and ends the loop), or the whole stream if nothing
matches. -/
def linesRead : List String → List String
  | [] => []
  | l :: ls =>
    if l = "" then l :: linesRead ls
    else if anyMatch l then [l]
    else l :: linesRead ls

/-- The operations main can dispatch to. -/
inductive MainOp
  | printVersion
  | manualExec
  | daemonWatch
  deriving DecidableEq, Repr

/-- The argparse choices of main in src/src/wifi/WiFi-Monitor.py. -/
def cliChoices : List String := ["exec", "daemon", "version", "v"]

/-- main of src/src/wifi/WiFi-Monitor.py: argparse rejects any action
outside cliChoices with a usage error (modelled as none); accepted actions
dispatch through the three sequential if statements — version and v print
the version, exec runs the manual notification plus _reset_sequence, and
daemon runs al_is_watching. -/
def mainDispatch (a : String) : Option MainOp :=
  if cliChoices.contains a then
    some
      (if a = "version" || a = "v" then MainOp.printVersion
       else if a = "exec" then MainOp.manualExec
       else MainOp.daemonWatch)
  else none

end Mon

namespace V1

/-- Registered services of src/wifi/WiFi-Monitor.py, in registration
order. -/
def services : List String := ["NetworkManager", "bluetooth"]

/-- Registered kernel modules of src/wifi/WiFi-Monitor.py, in registration
order. -/
def modules : List String := ["brcmfmac", "hci_bcm4377"]

/-- Cooldown window of the historical monitor (cd_time = 30). -/
def cd_time : Rat := 30

/-- The four compiled hang signatures of src/wifi/WiFi-Monitor.py. -/
def patterns : List Pat :=
  [["CMD_TRIGGER_SCAN", "error", "(5)"],
   ["brcmf_msgbuf_query_dcmd"],
   ["set wpa_auth failed"],
   ["error (-12)"]]

/-- _exec_cmd: run the shell command; True iff it exited with status zero
(subprocess.run with check=True raising CalledProcessError on a non-zero
status, caught and turned into False). -/
def _exec_cmd (w : World) (s : St) (c : String) : Bool × St :=
  let (code, s1) := execute_command w s c
  (code == 0, s1)

/-- _unload: stop every service in reverse registration order, unload
every module in reverse registration order, then sleep five seconds for
hardware power-off.  The per-step results of _exec_cmd are discarded; the
except-branch (return False) is unreachable since no step raises. -/
def _unload (w : World) (st : St) : Bool × St :=
  let st1 := services.reverse.foldl
    (fun acc sv => (_exec_cmd w acc ("systemctl stop " ++ sv)).2) st
  let st2 := modules.reverse.foldl
    (fun acc m => (_exec_cmd w acc ("modprobe --remove --remove-holders " ++ m)).2) st1
  (true, sleepEv 5 st2)

/-- _load: load every module in forward registration order, then start
every service in forward registration order.  Same discard-and-return-True
structure as _unload. -/
def _load (w : World) (st : St) : Bool × St :=
  let st1 := modules.foldl
    (fun acc m => (_exec_cmd w acc ("modprobe --verbose " ++ m)).2) st
  let st2 := services.foldl
    (fun acc sv => (_exec_cmd w acc ("systemctl start " ++ sv)).2) st1
  (true, st2)

/-- One iteration of the for line in p.stdout loop of Al_is_watching:
record the read, skip empty lines; on a signature match consult the
cooldown gate inline — within the window the trigger is dropped, otherwise
run _unload then _load and stamp last_recovery_time with the completion
time. -/
def Al_step (w : World) (st : St) (last : Rat) (line : String) : Rat × St :=
  let st1 := pushEv (Ev.readLine line) st
  if line = "" then (last, st1)
  else if anyMatchL patterns line then
    let (now, st2) := readClock w st1
    if now - last < cd_time then (last, st2)
    else
      let (_, st3) := _unload w st2
      let (_, st4) := _load w st3
      let (now2, st5) := readClock w st4
      (now2, st5)
  else (last, st1)

end V1

/-- A world in which every command succeeds, every module reads as loaded,
both sysfs probes report present, and the clock is frozen at five seconds
past epoch (pinned inside any cooldown window). -/
def w0 : World := ⟨fun _ _ => 0, fun _ _ => true, fun _ => true, fun _ => true, fun _ => 5⟩

/-- A world in which every command fails with exit code one and every
module stays loaded (so unloads never succeed), with sysfs reporting both
resources absent. -/
def wFail : World := ⟨fun _ _ => 1, fun _ _ => true, fun _ => false, fun _ => false, fun _ => 0⟩

/-- A world whose clock starts at one hundred seconds and advances one
second per oracle consultation; commands succeed and resources are
present. -/
def w7 : World := ⟨fun _ _ => 0, fun _ _ => true, fun _ => true, fun _ => true, fun k => 100 + (k : Rat)⟩

/-- Command extraction distributes over trace concatenation. -/
theorem cmdsE_append (a b : List Ev) : cmdsE (a ++ b) = cmdsE a ++ cmdsE b := by
  induction a with
  | nil => rfl
  | cons e r ih => cases e <;> simp [cmdsE, ih]

/-- Read-line extraction distributes over trace concatenation. -/
theorem readsE_append (a b : List Ev) : readsE (a ++ b) = readsE a ++ readsE b := by
  induction a with
  | nil => rfl
  | cons e r ih => cases e <;> simp [readsE, ih]

/-- C1.  Cooldown gate property.  In the current source
(src/src/wifi/WiFi-Monitor.py), whenever _reset_sequence is entered with
now - lastRecoveryAt strictly below the 20-second window, it returns False
with the timestamp unchanged and an unchanged trace: neither the unload nor
the load stage executes, no command is issued, and nothing is notified.  In
the historical watcher (src/wifi/WiFi-Monitor.py), a line that matches a
hang signature while the cooldown is active is dropped at the gate: the
step leaves last_recovery_time unchanged and records nothing beyond the
line read. -/
theorem C1_cooldown_gate :
    (∀ (w : World) (s : St) (lrt : Rat),
        w.clock s.t - lrt < Mon.cd_sec →
        Mon._reset_sequence w s lrt = (Except.ok false, lrt, ⟨s.t + 1, s.tr⟩)) ∧
    (∀ (w : World) (s : St) (last : Rat) (line : String),
        anyMatchL V1.patterns line = true →
        w.clock s.t - last < V1.cd_time →
        V1.Al_step w s last line = (last, ⟨s.t + 1, s.tr ++ [Ev.readLine line]⟩)) := by
  constructor
  · intro w s lrt h
    unfold Mon._reset_sequence readClock
    simp [h]
  · intro w s last line hm hcd
    have hne : line ≠ "" := by
      intro he
      subst he
      exact absurd hm (by decide)
    unfold V1.Al_step pushEv readClock
    simp [hne, hm, hcd]

/-- C1 witness: at a concrete world whose clock is pinned five seconds
past an epoch-zero timestamp, the gate refuses in both revisions. -/
theorem C1_cooldown_gate_witness :
    Mon._reset_sequence w0 st0 0 = (Except.ok false, 0, ⟨1, []⟩) ∧
    V1.Al_step w0 st0 0 "set wpa_auth failed" =
      (0, ⟨1, [Ev.readLine "set wpa_auth failed"]⟩) :=
  ⟨C1_cooldown_gate.1 w0 st0 0 (by norm_num [w0, st0, Mon.cd_sec]),
   C1_cooldown_gate.2 w0 st0 0 "set wpa_auth failed" (by decide)
     (by norm_num [w0, st0, V1.cd_time])⟩

/-- Helper: a line matching no signature is read and dropped by the
current watcher with no other effect. -/
theorem watch_line_nomatch :
    ∀ (w : World) (s : St) (lrt : Rat) (line : String),
      Mon.anyMatch line = false →
      Mon.watch_line w s lrt line =
        (Except.ok (), lrt, ⟨s.t, s.tr ++ [Ev.readLine line]⟩) := by
  intro w s lrt line h
  unfold Mon.watch_line pushEv
  by_cases he : line = ""
  · subst he
    simp
  · simp [he, h]

/-- C8.  Frame property of the current watcher: a line that matches none
of the compiled signatures is read and dropped — the iteration returns
normally, lastRecoveryAt is unchanged, the oracle cursor does not move and
the only new event is the line read itself (no pipeline, no command, no
notification). -/
theorem C8_no_match_frame :
    ∀ (w : World) (s : St) (lrt : Rat) (line : String),
      Mon.anyMatch line = false →
      Mon.watch_line w s lrt line =
        (Except.ok (), lrt, ⟨s.t, s.tr ++ [Ev.readLine line]⟩) :=
  watch_line_nomatch

/-- C8 witness at a concrete non-matching line. -/
theorem C8_no_match_frame_witness :
    Mon.watch_line w0 st0 0 "hello" =
      (Except.ok (), 0, ⟨0, [Ev.readLine "hello"]⟩) :=
  C8_no_match_frame w0 st0 0 "hello" (by decide)

/-- Helper: the unload retry loop, when the modprobe remove command fails
on every invocation, exhausts its fuel, reports False, and issues exactly
one command plus one backoff sleep per attempt. -/
theorem unload_attempts_allfail (w : World) (m : String) (d : Rat)
    (h : ∀ k, w.exitCode k ("modprobe --verbose --remove --remove-holders " ++ m) = 1) :
    ∀ (n : Nat) (s : St),
      unload_attempts w m d n s =
        (false, ⟨s.t + n,
          s.tr ++ (List.replicate n
            [Ev.cmd ("modprobe --verbose --remove --remove-holders " ++ m) 1,
             Ev.sleep 1]).flatten⟩) := by
  intro n
  induction n with
  | zero => intro s; simp [unload_attempts]
  | succ k ih =>
    intro s
    have hred : unload_attempts w m d (k + 1) s =
        unload_attempts w m d k
          (sleepEv 1 ⟨s.t + 1,
            s.tr ++ [Ev.cmd ("modprobe --verbose --remove --remove-holders " ++ m) 1]⟩) := by
      simp [unload_attempts, execute_command, h]
    rw [hred, ih]
    simp only [sleepEv, List.replicate_succ, List.flatten_cons, List.append_assoc,
      Prod.mk.injEq, St.mk.injEq, List.cons_append, List.nil_append, true_and]
    constructor
    · omega
    · simp

/-- Helper: a granted pass of _reset_sequence (cooldown expired) raises
TypeError at the start-of-sequence notification, before any stage runs and
without touching the cooldown timestamp. -/
theorem reset_granted (w : World) (s : St) (lrt : Rat)
    (h : Mon.cd_sec ≤ w.clock s.t - lrt) :
    Mon._reset_sequence w s lrt =
      (Except.error PyErr.typeError, lrt,
        ⟨s.t + 1, s.tr ++ [Ev.notifyAttempt Mon.notifyReset]⟩) := by
  unfold Mon._reset_sequence readClock notify_as_user
  simp [not_lt.mpr h]

/-- Helper: the lines that the current watch loop reads are exactly the
stream prefix up to and including the first signature-matching line (whose
hang notification raises TypeError and aborts the loop). -/
theorem watchLines_reads (w : World) :
    ∀ (lines : List String) (s : St) (lrt : Rat),
      readsE (Mon.watchLines w lines s lrt).2.2.tr =
        readsE s.tr ++ Mon.linesRead lines := by
  intro lines
  induction lines with
  | nil => intro s lrt; simp [Mon.watchLines, Mon.linesRead]
  | cons l ls ih =>
    intro s lrt
    by_cases he : l = ""
    · subst he
      have hwl : Mon.watch_line w s lrt "" =
          (Except.ok (), lrt, ⟨s.t, s.tr ++ [Ev.readLine ""]⟩) := by
        unfold Mon.watch_line pushEv
        simp
      simp [Mon.watchLines, hwl, Mon.linesRead, ih, readsE_append, readsE]
    · by_cases hma : Mon.anyMatch l
      · have hwl : Mon.watch_line w s lrt l =
            (Except.error PyErr.typeError, lrt,
              ⟨s.t, (s.tr ++ [Ev.readLine l]) ++ [Ev.notifyAttempt Mon.notifyHang]⟩) := by
          unfold Mon.watch_line pushEv notify_as_user
          simp [he, hma]
        simp [Mon.watchLines, hwl, Mon.linesRead, he, hma, readsE_append, readsE]
      · have hwl := watch_line_nomatch w s lrt l (by simpa using hma)
        simp [Mon.watchLines, hwl, Mon.linesRead, he, hma, ih, readsE_append, readsE]

/-- C2.  Failing input for the verification engine of the current source:
with both the wireless interface and the bluetooth controller present in
sysfs, _verify_connectivity probes both resources, then raises TypeError at
the success notification (t2.execute_command accepts no as_user keyword)
instead of returning success — so it never returns True, and on the
exhausted path it raises at the critical notification instead of returning
False. -/
theorem C2_verify_raises_typeerror :
    (Mon._verify_connectivity w0 3 st0).1 = Except.error PyErr.typeError ∧
    (Mon._verify_connectivity w0 3 st0).2.tr =
      [Ev.sysfs "wifi" true, Ev.sysfs "bt" true,
       Ev.notifyAttempt Mon.notifyRestored] :=
  ⟨rfl, rfl⟩

/-- C3.  Ordering invariant of the historical monitor
(src/wifi/WiFi-Monitor.py): once the cooldown gate grants a trigger, the
recovery issues exactly these commands in this order — every registered
service and module exactly once in strict reverse registration order
(unload stage), and, only after the unload stage completes, every module
and service exactly once in forward registration order (load stage). -/
theorem C3_stage_order :
    ∀ (w : World) (s : St) (last : Rat) (line : String),
      anyMatchL V1.patterns line = true →
      V1.cd_time ≤ w.clock s.t - last →
      cmdsE (V1.Al_step w s last line).2.tr = cmdsE s.tr ++
        ["systemctl stop bluetooth", "systemctl stop NetworkManager",
         "modprobe --remove --remove-holders hci_bcm4377",
         "modprobe --remove --remove-holders brcmfmac",
         "modprobe --verbose brcmfmac", "modprobe --verbose hci_bcm4377",
         "systemctl start NetworkManager", "systemctl start bluetooth"] := by
  intro w s last line hm hcd
  have hne : line ≠ "" := by
    intro he
    subst he
    exact absurd hm (by decide)
  unfold V1.Al_step pushEv readClock
  simp [hne, hm, not_lt.mpr hcd, V1._unload, V1._load, V1._exec_cmd, execute_command,
        V1.services, V1.modules, sleepEv, cmdsE_append, cmdsE]

/-- C3 witness: a signature-matching line arriving with the cooldown long
expired produces exactly the eight-command recovery trace. -/
theorem C3_stage_order_witness :
    cmdsE (V1.Al_step w7 st0 0 "set wpa_auth failed").2.tr =
      ["systemctl stop bluetooth", "systemctl stop NetworkManager",
       "modprobe --remove --remove-holders hci_bcm4377",
       "modprobe --remove --remove-holders brcmfmac",
       "modprobe --verbose brcmfmac", "modprobe --verbose hci_bcm4377",
       "systemctl start NetworkManager", "systemctl start bluetooth"] := by
  have h := C3_stage_order w7 st0 0 "set wpa_auth failed" (by decide)
    (by norm_num [w7, st0, V1.cd_time])
  simpa [st0, cmdsE] using h

/-- C4 counterexample.  The claim says that after a pipeline error the
watcher resumes reading subsequent log lines.  In the current source the
try/except encloses the whole loop: the first matching line raises
TypeError at the hang notification, the handler logs it, and al_is_watching
returns — the second line of the stream is never read. -/
theorem C4_watcher_stops_counterexample :
    readsE (Mon.al_is_watching w0 ["set wpa_auth failed", "second line"] st0 0).2.tr
      = ["set wpa_auth failed"] ∧
    readsE (Mon.al_is_watching w0 ["set wpa_auth failed", "second line"] st0 0).2.tr
      ≠ ["set wpa_auth failed", "second line"] := by
  constructor
  · rfl
  · decide

/-- C4 amended.  No exception propagates out of al_is_watching — watch loop
errors land in its try/except, which logs and returns — but the watcher
does not resume after an error: the lines actually read are exactly the
stream prefix up to and including the first signature-matching line (whose
pipeline raises TypeError at the hang notification in the current source);
only a stream with no matching line is read in full. -/
theorem C4_caught_but_loop_ends :
    ∀ (w : World) (lines : List String) (s : St) (lrt : Rat),
      readsE (Mon.al_is_watching w lines s lrt).2.tr =
        readsE s.tr ++ Mon.linesRead lines := by
  intro w lines s lrt
  have h := watchLines_reads w lines s lrt
  unfold Mon.al_is_watching
  rcases hw : Mon.watchLines w lines s lrt with ⟨e, lrt2, s2⟩
  rw [hw] at h
  cases e <;> simpa using h

/-- C5 counterexample.  The claim says each stage returns True iff every
step succeeded.  In the historical monitor, with every command failing
(exit status one), the first step of the unload stage fails — _exec_cmd
returns False and the trace records the failing command — yet the stage
still returns True. -/
theorem C5_stage_true_despite_failure :
    (V1._unload wFail st0).1 = true ∧
    (V1._exec_cmd wFail st0 "systemctl stop bluetooth").1 = false ∧
    Ev.cmd "systemctl stop bluetooth" 1 ∈ (V1._unload wFail st0).2.tr := by
  refine ⟨rfl, rfl, ?_⟩
  decide

/-- C5 amended.  Each stage attempts every step in order without halting
early and returns True regardless of per-step command failures (False
could only arise from an exception escaping a step, and no modelled step
raises): the historical stages always return True and always issue their
full command list, and the current stages always return True. -/
theorem C5_stages_best_effort :
    ∀ (w : World) (s : St),
      (V1._unload w s).1 = true ∧ (V1._load w s).1 = true ∧
      (Mon._unload_all w s).1 = true ∧ (Mon._load_all w s).1 = true ∧
      cmdsE (V1._unload w s).2.tr = cmdsE s.tr ++
        ["systemctl stop bluetooth", "systemctl stop NetworkManager",
         "modprobe --remove --remove-holders hci_bcm4377",
         "modprobe --remove --remove-holders brcmfmac"] ∧
      cmdsE (V1._load w s).2.tr = cmdsE s.tr ++
        ["modprobe --verbose brcmfmac", "modprobe --verbose hci_bcm4377",
         "systemctl start NetworkManager", "systemctl start bluetooth"] := by
  intro w s
  refine ⟨rfl, rfl, rfl, rfl, ?_, ?_⟩
  · simp [V1._unload, V1._exec_cmd, execute_command, V1.services, V1.modules,
          sleepEv, cmdsE_append, cmdsE]
  · simp [V1._load, V1._exec_cmd, execute_command, V1.services, V1.modules,
          cmdsE_append, cmdsE]

/-- C6.  Best-effort sequencing in the current source: when the wifi
module stays loaded and its modprobe remove command fails on every attempt,
the unload stage still proceeds to the bluetooth step — the trace shows the
wifi unload command failing all three retry attempts followed by all three
bluetooth unload attempts, and the stage completes (returning True). -/
theorem C6_subsequent_steps_attempted :
    ∀ (w : World) (s : St),
      (∀ k, w.exitCode k "modprobe --verbose --remove --remove-holders brcmfmac_wcc" = 1) →
      (∀ k, w.exitCode k "modprobe --verbose --remove --remove-holders hci_bcm4377" = 1) →
      (∀ (k : Nat) (m : String), w.moduleLoaded k m = true) →
      (Mon._unload_all w s).1 = true ∧
      cmdsE (Mon._unload_all w s).2.tr = cmdsE s.tr ++
        ["modprobe --verbose --remove --remove-holders brcmfmac_wcc",
         "modprobe --verbose --remove --remove-holders brcmfmac_wcc",
         "modprobe --verbose --remove --remove-holders brcmfmac_wcc",
         "modprobe --verbose --remove --remove-holders hci_bcm4377",
         "modprobe --verbose --remove --remove-holders hci_bcm4377",
         "modprobe --verbose --remove --remove-holders hci_bcm4377"] := by
  intro w s hW hB hL
  have hu : ∀ (m : String) (s2 : St),
      (∀ k, w.exitCode k ("modprobe --verbose --remove --remove-holders " ++ m) = 1) →
      unload_module w s2 m 3 =
        (false, ⟨s2.t + 1 + 3,
          (s2.tr ++ [Ev.loadedQ m true]) ++ (List.replicate 3
            [Ev.cmd ("modprobe --verbose --remove --remove-holders " ++ m) 1,
             Ev.sleep 1]).flatten⟩) := by
    intro m s2 hm
    unfold unload_module is_module_loaded
    simp only [hL]
    simpa using unload_attempts_allfail w m 3 hm 3 ⟨s2.t + 1, s2.tr ++ [Ev.loadedQ m true]⟩
  constructor
  · rfl
  · unfold Mon._unload_all Mon._unload_wifi Mon._unload_bt
    rw [hu "brcmfmac_wcc" s hW]
    rw [hu "hci_bcm4377" _ hB]
    simp [cmdsE_append, cmdsE]

/-- C6 witness: the fully failing world realizes the hypotheses. -/
theorem C6_subsequent_steps_attempted_witness :
    (Mon._unload_all wFail st0).1 = true ∧
    cmdsE (Mon._unload_all wFail st0).2.tr =
      ["modprobe --verbose --remove --remove-holders brcmfmac_wcc",
       "modprobe --verbose --remove --remove-holders brcmfmac_wcc",
       "modprobe --verbose --remove --remove-holders brcmfmac_wcc",
       "modprobe --verbose --remove --remove-holders hci_bcm4377",
       "modprobe --verbose --remove --remove-holders hci_bcm4377",
       "modprobe --verbose --remove --remove-holders hci_bcm4377"] := by
  have h := C6_subsequent_steps_attempted wFail st0 (fun k => rfl) (fun k => rfl)
    (fun k m => rfl)
  simpa [st0, cmdsE] using h

/-- C7 counterexample.  Two manual _reset_sequence invocations one second
apart, starting from the initial epoch-zero timestamp: the first is granted
and its pipeline fails (TypeError at the start notification) without
updating lastRecoveryAt, and the second — contrary to the claim — is not
refused by the cooldown gate: it is granted again and fails the same way
(a refusal would return ok false). -/
theorem C7_second_invocation_not_refused :
    (Mon._reset_sequence w7 st0 0).1 = Except.error PyErr.typeError ∧
    (Mon._reset_sequence w7 st0 0).2.1 = 0 ∧
    w7.clock (Mon._reset_sequence w7 st0 0).2.2.t - w7.clock st0.t < Mon.cd_sec ∧
    (Mon._reset_sequence w7 (Mon._reset_sequence w7 st0 0).2.2 0).1 =
      Except.error PyErr.typeError ∧
    (Mon._reset_sequence w7 (Mon._reset_sequence w7 st0 0).2.2 0).1 ≠
      Except.ok false := by
  have h1 := reset_granted w7 st0 0 (by norm_num [w7, st0, Mon.cd_sec])
  have h2 := reset_granted w7 ⟨1, [Ev.notifyAttempt Mon.notifyReset]⟩ 0
    (by norm_num [w7, Mon.cd_sec])
  rw [h1]
  refine ⟨rfl, rfl, by norm_num [w7, st0, Mon.cd_sec], ?_, ?_⟩
  · rw [show (⟨st0.t + 1, st0.tr ++ [Ev.notifyAttempt Mon.notifyReset]⟩ : St) =
        (⟨1, [Ev.notifyAttempt Mon.notifyReset]⟩ : St) from rfl, h2]
  · rw [show (⟨st0.t + 1, st0.tr ++ [Ev.notifyAttempt Mon.notifyReset]⟩ : St) =
        (⟨1, [Ev.notifyAttempt Mon.notifyReset]⟩ : St) from rfl, h2]
    intro hc
    exact Except.noConfusion hc

/-- C7 amended.  The second of two back-to-back manual invocations is
refused only if the first updated lastRecoveryAt, which the current source
does only on verified success — and a granted invocation in fact always
raises TypeError at its start notification before any stage, leaving the
timestamp unchanged; hence whenever both gates see an expired window the
second invocation is granted (raising, not refused), regardless of the
first invocation having failed. -/
theorem C7_refusal_requires_success :
    ∀ (w : World) (s : St) (lrt : Rat),
      Mon.cd_sec ≤ w.clock s.t - lrt →
      (Mon._reset_sequence w s lrt).1 = Except.error PyErr.typeError ∧
      (Mon._reset_sequence w s lrt).2.1 = lrt ∧
      (Mon.cd_sec ≤ w.clock (Mon._reset_sequence w s lrt).2.2.t - lrt →
        (Mon._reset_sequence w (Mon._reset_sequence w s lrt).2.2 lrt).1 =
          Except.error PyErr.typeError ∧
        (Mon._reset_sequence w (Mon._reset_sequence w s lrt).2.2 lrt).1 ≠
          Except.ok false) := by
  intro w s lrt h
  rw [reset_granted w s lrt h]
  refine ⟨rfl, rfl, ?_⟩
  intro h2
  rw [reset_granted w _ lrt (by simpa using h2)]
  exact ⟨rfl, fun hc => Except.noConfusion hc⟩

/-- C7 amended witness: at the concrete one-second-per-tick world both
gate hypotheses hold and both invocations raise. -/
theorem C7_refusal_requires_success_witness :
    (Mon._reset_sequence w7 st0 0).1 = Except.error PyErr.typeError ∧
    (Mon._reset_sequence w7 st0 0).2.1 = 0 ∧
    ((Mon._reset_sequence w7 (Mon._reset_sequence w7 st0 0).2.2 0).1 =
        Except.error PyErr.typeError ∧
      (Mon._reset_sequence w7 (Mon._reset_sequence w7 st0 0).2.2 0).1 ≠
        Except.ok false) := by
  have h := C7_refusal_requires_success w7 st0 0 (by norm_num [w7, st0, Mon.cd_sec])
  exact ⟨h.1, h.2.1, h.2.2 (by
    rw [reset_granted w7 st0 0 (by norm_num [w7, st0, Mon.cd_sec])]
    norm_num [w7, st0, Mon.cd_sec])⟩

/-- C9 counterexample.  The claim says the CLI accepts a check subcommand;
argparse in the current source restricts action to exec, daemon, version
and v, so check is rejected with a usage error. -/
theorem C9_check_rejected : Mon.mainDispatch "check" = none := rfl

/-- C9 amended.  The CLI accepts exactly exec, daemon, version and v (an
undocumented alias of version): version and v print the version string,
exec runs the manual notification followed by _reset_sequence, daemon runs
al_is_watching, and everything else — including check — is rejected with a
usage error. -/
theorem C9_cli_dispatch :
    (∀ a, (Mon.mainDispatch a).isSome = Mon.cliChoices.contains a) ∧
    Mon.mainDispatch "exec" = some Mon.MainOp.manualExec ∧
    Mon.mainDispatch "daemon" = some Mon.MainOp.daemonWatch ∧
    Mon.mainDispatch "version" = some Mon.MainOp.printVersion ∧
    Mon.mainDispatch "v" = some Mon.MainOp.printVersion := by
  refine ⟨?_, rfl, rfl, rfl, rfl⟩
  intro a
  unfold Mon.mainDispatch
  by_cases h : a ∈ Mon.cliChoices <;> simp [h]

/-- C10.  Non-blocking service control in src/src/t2.py: with block=False,
start_service issues one is-active query (to choose start versus restart)
followed by exactly one action command and returns True whatever any exit
status is; stop_service issues exactly one stop command and returns True.
No post-action state check and no retry occurs in non-blocking mode. -/
theorem C10_nonblocking_single_issue :
    ∀ (w : World) (s : St) (name : String),
      (start_service w s name false).1 = true ∧
      cmdsE (start_service w s name false).2.tr = cmdsE s.tr ++
        ["systemctl is-active --quiet " ++ name,
         "systemctl " ++
           (if w.exitCode s.t ("systemctl is-active --quiet " ++ name) = 0
            then "restart" else "start") ++ " --no-block " ++ name] ∧
      (stop_service w s name false).1 = true ∧
      cmdsE (stop_service w s name false).2.tr =
        cmdsE s.tr ++ ["systemctl stop --no-block " ++ name] := by
  intro w s name
  have h3 : ∀ (a c : String) (s2 : St),
      start_attempts w a c false 3 s2 = (true, (execute_command w s2 a).2) :=
    fun a c s2 => rfl
  have h4 : ∀ (nm : String) (s2 : St),
      stop_attempts w nm false 3 s2 =
        (true, (execute_command w s2 ("systemctl stop --no-block " ++ nm)).2) :=
    fun nm s2 => rfl
  refine ⟨?_, ?_, ?_, ?_⟩
  · unfold start_service
    simp [h3]
  · unfold start_service
    simp only [h3]
    by_cases hc : w.exitCode s.t ("systemctl is-active --quiet " ++ name) = 0 <;>
      simp [execute_command, hc, cmdsE_append, cmdsE]
  · unfold stop_service
    simp [h4]
  · unfold stop_service
    simp [h4, execute_command, cmdsE_append, cmdsE]

end T2Linux
